import Mathlib

/-!
Shallow embedding of `src/addons/libkosext2fs/fs_ext2.c` (KallistiOS ext2
VFS driver) and proofs about it.

The driver keeps a fixed array `fh[MAX_EXT2_FILES]` of open-file handles,
a registry of mounts, and a single global mutex.  The backend primitives
(`ext2_inode_by_path`, `ext2_inode_get`, `ext2_inode_put`,
`ext2_dir_entry`, `ext2_dir_rm_entry`, `ext2_dir_add_entry`,
`ext2_inode_deref`, `ext2_inode_read_block`, ...) live outside `src/`;
their outcomes are supplied here as explicit environment records, and the
calls the driver makes to them are recorded as explicit event traces so
that locking discipline, reference counting and mutation ordering can be
stated and proved.

Machine integers are modelled as `Nat`/`Int` with explicit reductions
modulo `2 ^ 64` where the C code's `uint64_t` arithmetic can wrap
(`fs_ext2_seek`, the length clamp in `fs_ext2_read`).
-/

/-- `MAX_EXT2_FILES` from fs_ext2.c line 27. -/
def MAX_EXT2_FILES : Nat := 16

/-- Modelled from the spec: errno constant `EPERM` comes from `errno.h`,
which is not under `src/`; only its identity matters here. -/
def eperm : Nat := 1

/-- Modelled from the spec: errno constant `ENOENT` (`errno.h`, not under
`src/`). -/
def enoent : Nat := 2

/-- Modelled from the spec: errno constant `EIO` (`errno.h`, not under
`src/`). -/
def eio : Nat := 5

/-- Modelled from the spec: errno constant `EBADF` (`errno.h`, not under
`src/`). -/
def ebadf : Nat := 9

/-- Modelled from the spec: errno constant `ENOMEM` (`errno.h`, not under
`src/`). -/
def enomem : Nat := 12

/-- Modelled from the spec: errno constant `EBUSY` (`errno.h`, not under
`src/`). -/
def ebusy : Nat := 16

/-- Modelled from the spec: errno constant `EEXIST` (`errno.h`, not under
`src/`). -/
def eexist : Nat := 17

/-- Modelled from the spec: errno constant `ENOTDIR` (`errno.h`, not under
`src/`). -/
def enotdir : Nat := 20

/-- Modelled from the spec: errno constant `EISDIR` (`errno.h`, not under
`src/`). -/
def eisdir : Nat := 21

/-- Modelled from the spec: errno constant `EINVAL` (`errno.h`, not under
`src/`). -/
def einval : Nat := 22

/-- Modelled from the spec: errno constant `ENFILE` (`errno.h`, not under
`src/`). -/
def enfile : Nat := 23

/-- Modelled from the spec: errno constant `EROFS` (`errno.h`, not under
`src/`). -/
def erofs : Nat := 30

/-- Modelled from the spec: errno constant `ENOTEMPTY` (`errno.h`, not
under `src/`). -/
def enotempty : Nat := 90

/-- Modelled from the spec: open-mode flag constants come from
`kos/fs.h` / `fcntl.h`, which are not under `src/`.  The spec's data
model (section 3) lists read as a distinct captured open flag, so read
intent is a nonzero bit here; the exact bit positions are irrelevant to
the driver, which only masks and compares. -/
def O_RDONLY : Nat := 1

/-- Modelled from the spec: write-intent open flag (`kos/fs.h` /
`fcntl.h`, not under `src/`). -/
def O_WRONLY : Nat := 2

/-- Modelled from the spec: create-intent open flag (`kos/fs.h` /
`fcntl.h`, not under `src/`). -/
def O_CREAT : Nat := 16

/-- Modelled from the spec: truncate-intent open flag (`kos/fs.h` /
`fcntl.h`, not under `src/`). -/
def O_TRUNC : Nat := 32

/-- Modelled from the spec: directory open flag (`kos/fs.h`, not under
`src/`). -/
def O_DIR : Nat := 4096

/-- Modelled from the spec: `SEEK_SET` whence value (`stdio.h`/`unistd.h`,
not under `src/`). -/
def SEEK_SET : Int := 0

/-- Modelled from the spec: `SEEK_CUR` whence value. -/
def SEEK_CUR : Int := 1

/-- Modelled from the spec: `SEEK_END` whence value. -/
def SEEK_END : Int := 2

/-- Modelled from the spec: the ext2 directory-type mode bits
`EXT2_S_IFDIR = 0x4000` come from the backend header `inode.h`, which is
not under `src/` (standard ext2 value). -/
def EXT2_S_IFDIR : Nat := 0x4000

/-- Modelled from the spec: the read-write mount flag bit from
`ext2/fs_ext2.h`, not under `src/` (the spec: "a single bit enabling
read-write structural operations"). -/
def FS_EXT2_MOUNT_READWRITE : Nat := 1

/-- Modelled from the spec: `2 ^ 64`, the modulus of the C `uint64_t`
arithmetic used for `fh[fd].ptr`. -/
def U64 : Nat := 2 ^ 64

/-- Reduce an `Int` to the `Nat` a C `uint64_t` assignment would hold. -/
def u64 (i : Int) : Nat := (i % ((2 : Int) ^ 64)).toNat

/-- The `(uint32_t)-1` sentinel fs_ext2_open stores while a slot is being
resolved (`fh[fd].inode_num = -1`, line 66). -/
def SENTINEL : Nat := 2 ^ 32 - 1

/-- Modelled from the spec: the consumed fields of the backend's
`ext2_inode_t` (header `inode.h`, not under `src/`); the spec's data
model (section 3) lists mode bits, size, link count and times. -/
structure Ext2Inode where
  i_mode : Nat
  i_size : Nat
  i_links_count : Nat
  i_mtime : Nat
  deriving DecidableEq, Repr

instance : Inhabited Ext2Inode := ⟨⟨0, 0, 0, 0⟩⟩

/-- Modelled from the spec: the backend's `ext2_dirent_t` record
(header `directory.h`, not under `src/`); the spec's data model lists
inode number, record length, name length and name. -/
structure Ext2Dirent where
  inode : Nat
  rec_len : Nat
  name_len : Nat
  name : String
  deriving DecidableEq, Repr

/-- One slot of the static `fh` array (fs_ext2.c lines 41-48).  The
`dent` scratch record is returned by value from `fs_ext2_readdir` here
instead of being stored, and the (non-owned) mount back-reference is not
needed by any claim. -/
structure FileHandle where
  inode_num : Nat
  mode : Nat
  ptr : Nat
  inode : Ext2Inode
  deriving DecidableEq, Repr

instance : Inhabited FileHandle := ⟨⟨0, 0, 0, default⟩⟩

/-- Read slot `fd` of the handle table (the C array access `fh[fd]`,
performed only under a `fd < MAX_EXT2_FILES` guard; tables in theorems
always have length 16). -/
def fhGet (t : List FileHandle) (fd : Nat) : FileHandle :=
  t.getD fd default

/-- Modelled from the spec: the `dirent_t` record handed to callers
(`kos/fs.h`, not under `src/`); the spec's section 6 lists name, size,
modification time and a directory attribute flag. -/
structure Dirent where
  size : Nat
  name : String
  time : Nat
  attr : Nat
  deriving DecidableEq, Repr

/-- Result of `fs_ext2_open`: the `(void *)(fd + 1)` handle or NULL with
an errno. -/
inductive OpenRes where
  | ok (hnd : Nat)
  | err (e : Nat)
  deriving DecidableEq, Repr

/-- Result of `fs_ext2_read`: a byte count or -1 with an errno. -/
inductive ReadRes where
  | ok (n : Nat)
  | err (e : Nat)
  deriving DecidableEq, Repr

/-- Result of `fs_ext2_seek`: the new position, or -1; the C code sets
errno to EINVAL for a bad handle but leaves errno untouched for an
unknown whence, hence the `Option Nat`. -/
inductive SeekRes where
  | ok (pos : Nat)
  | err (e : Option Nat)
  deriving DecidableEq, Repr

/-- Result of `fs_ext2_tell` / `fs_ext2_total`. -/
inductive TellRes where
  | ok (v : Nat)
  | err (e : Nat)
  deriving DecidableEq, Repr

/-- Result of `fs_ext2_readdir`: an entry, NULL at end-of-directory
(errno untouched), or NULL with an errno. -/
inductive RdRes where
  | entry (d : Dirent)
  | endDir
  | err (e : Nat)
  deriving DecidableEq, Repr

/-- Result of the backend's `ext2_inode_by_path` (outcome supplied by an
environment record): the resolved inode and its number, or a negative
error code. -/
inductive PathRes where
  | ok (ino : Ext2Inode) (num : Nat)
  | err (e : Int)
  deriving DecidableEq, Repr

/-- Result of the backend's `ext2_dir_rm_entry`: the removed entry's
inode number (the C out-parameter), or a negative error code. -/
inductive RmRes where
  | ok (num : Nat)
  | err (e : Int)
  deriving DecidableEq, Repr

/-- `fs_ext2_close` (fs_ext2.c lines 125-140): frees the slot iff the
index is in range and the slot's `mode` is nonzero; otherwise a no-op.
The caller-visible handle is `fd + 1`. -/
def fs_ext2_close (t : List FileHandle) (hnd : Nat) : List FileHandle :=
  let fd := hnd - 1
  let s := fhGet t fd
  if fd < MAX_EXT2_FILES ∧ s.mode ≠ 0 then
    t.set fd { s with inode_num := 0, mode := 0 }
  else
    t

/-- The clamp `if(fh[fd].ptr > fh[fd].inode->i_size) fh[fd].ptr = i_size`
(fs_ext2.c line 249). -/
def clampSz (p size : Nat) : Nat := if size < p then size else p

/-- `fs_ext2_seek` (fs_ext2.c lines 216-254).  The cursor is a
`uint64_t`; each `switch` arm assigns it modulo `2 ^ 64` and the result
is then clamped to the file size.  An unknown whence returns -1 without
setting errno. -/
def fs_ext2_seek (t : List FileHandle) (hnd : Nat) (offset : Int) (whence : Int) :
    List FileHandle × SeekRes :=
  let fd := hnd - 1
  let s := fhGet t fd
  if MAX_EXT2_FILES ≤ fd ∨ s.inode_num = 0 ∨ s.mode &&& O_DIR ≠ 0 then
    (t, .err (some einval))
  else if whence = SEEK_SET then
    let p := clampSz (u64 offset) s.inode.i_size
    (t.set fd { s with ptr := p }, .ok p)
  else if whence = SEEK_CUR then
    let p := clampSz (u64 ((s.ptr : Int) + offset)) s.inode.i_size
    (t.set fd { s with ptr := p }, .ok p)
  else if whence = SEEK_END then
    let p := clampSz (u64 ((s.inode.i_size : Int) + offset)) s.inode.i_size
    (t.set fd { s with ptr := p }, .ok p)
  else
    (t, .err none)

/-- `fs_ext2_tell` (fs_ext2.c lines 256-271). -/
def fs_ext2_tell (t : List FileHandle) (hnd : Nat) : TellRes :=
  let fd := hnd - 1
  let s := fhGet t fd
  if MAX_EXT2_FILES ≤ fd ∨ s.inode_num = 0 ∨ s.mode &&& O_DIR ≠ 0 then
    .err einval
  else
    .ok s.ptr

/-- `fs_ext2_total` (fs_ext2.c lines 273-288). -/
def fs_ext2_total (t : List FileHandle) (hnd : Nat) : TellRes :=
  let fd := hnd - 1
  let s := fhGet t fd
  if MAX_EXT2_FILES ≤ fd ∨ s.inode_num = 0 ∨ s.mode &&& O_DIR ≠ 0 then
    .err einval
  else
    .ok s.inode.i_size

/-- Modelled from the spec: `(a - b) mod 2 ^ 64`, the value the C
`uint64_t` subtraction `i_size - ptr` produces (fs_ext2.c line 161). -/
def sub64 (a b : Nat) : Nat := (a + U64 - b) % U64

/-- The copy loop of `fs_ext2_read` (fs_ext2.c lines 191-209): while
bytes remain, fetch the block holding the cursor (failure aborts with
the cursor as advanced so far), then copy a whole block or the final
partial block.  `okB i` tells whether `ext2_inode_read_block` succeeds
for logical block `i`; the block size is `2 ^ lbs`.  Returns the final
cursor and whether every fetch succeeded. -/
def readLoop (okB : Nat → Bool) (lbs : Nat) (ptr cnt : Nat) : Nat × Bool :=
  if cnt = 0 then (ptr, true)
  else if okB (ptr / 2 ^ lbs) = false then (ptr, false)
  else if hbs : 2 ^ lbs < cnt then
    readLoop okB lbs (ptr + 2 ^ lbs) (cnt - 2 ^ lbs)
  else (ptr + cnt, true)
termination_by cnt
decreasing_by
  have hp : 0 < 2 ^ lbs := Nat.pos_pow_of_pos lbs (by omega)
  omega

/-- `fs_ext2_read` (fs_ext2.c lines 142-214).  The requested count is
clamped to the remaining file size (`uint64_t` arithmetic), a nonzero
in-block offset makes the first block a special partial copy, and the
rest is `readLoop`.  Block-fetch failure returns -1 with the errno the
backend set (modelled as `eio`); the cursor keeps whatever advance the
copies before the failure made. -/
def fs_ext2_read (okB : Nat → Bool) (lbs : Nat) (t : List FileHandle) (hnd : Nat)
    (cnt0 : Nat) : List FileHandle × ReadRes :=
  let fd := hnd - 1
  let s := fhGet t fd
  if MAX_EXT2_FILES ≤ fd ∨ s.inode_num = 0 ∨ s.mode &&& O_DIR ≠ 0 then
    (t, .err einval)
  else
    let cnt := if s.inode.i_size < s.ptr + cnt0 then sub64 s.inode.i_size s.ptr
               else cnt0
    let bs := 2 ^ lbs
    let rv := cnt
    let bo := s.ptr % bs
    if bo ≠ 0 then
      if okB (s.ptr / bs) = false then (t, .err eio)
      else
        let pc := if bs - bo < cnt then (s.ptr + (bs - bo), cnt - (bs - bo))
                  else (s.ptr + cnt, 0)
        match readLoop okB lbs pc.1 pc.2 with
        | (p, true) => (t.set fd { s with ptr := p }, .ok rv)
        | (p, false) => (t.set fd { s with ptr := p }, .err eio)
    else
      match readLoop okB lbs s.ptr cnt with
      | (p, true) => (t.set fd { s with ptr := p }, .ok rv)
      | (p, false) => (t.set fd { s with ptr := p }, .err eio)

/-- The backend state `fs_ext2_readdir` consults: the log2 block size,
which logical-block fetches succeed, the `ext2_dirent_t` the cast
`(ext2_dirent_t *)(block + (ptr & (bs - 1)))` yields at a given byte
offset of the directory, and the outcome of `ext2_inode_get` per inode
number. -/
structure DirBackend where
  lbs : Nat
  blockOk : Nat → Bool
  dentAt : Nat → Ext2Dirent
  igetD : Nat → Option Ext2Inode

/-- The `retry` loop of `fs_ext2_readdir` (fs_ext2.c lines 312-363):
end-of-directory once the cursor reaches the size; a failed block fetch
returns NULL with the backend's errno (modelled as `eio`); a zero record
length is a corrupted directory (EBADF); a zero inode number advances
the cursor by the record length and retries; otherwise the entry's inode
is fetched (failure is EIO), the transient record is filled and the
cursor advanced.  Returns the new cursor and the outcome. -/
def readdirLoop (b : DirBackend) (isize : Nat) (ptr : Nat) : Nat × RdRes :=
  if hend : isize ≤ ptr then (ptr, .endDir)
  else if b.blockOk (ptr / 2 ^ b.lbs) = false then (ptr, .err eio)
  else
    let d := b.dentAt ptr
    if hrl : d.rec_len = 0 then (ptr, .err ebadf)
    else if d.inode = 0 then readdirLoop b isize (ptr + d.rec_len)
    else
      match b.igetD d.inode with
      | none => (ptr, .err eio)
      | some ino =>
          (ptr + d.rec_len,
           .entry { size := ino.i_size,
                    name := d.name.take d.name_len,
                    time := ino.i_mtime,
                    attr := if ino.i_mode &&& EXT2_S_IFDIR ≠ 0 then O_DIR else 0 })
termination_by isize - ptr
decreasing_by
  simp_wf
  unfold d at hrl
  omega

/-- `fs_ext2_readdir` (fs_ext2.c lines 290-364): validates that the
handle is an in-use directory handle, then runs the retry loop and
stores the advanced cursor back into the slot. -/
def fs_ext2_readdir (b : DirBackend) (t : List FileHandle) (hnd : Nat) :
    List FileHandle × RdRes :=
  let fd := hnd - 1
  let s := fhGet t fd
  if MAX_EXT2_FILES ≤ fd ∨ s.inode_num = 0 ∨ s.mode &&& O_DIR = 0 then
    (t, .err einval)
  else
    let pr := readdirLoop b s.inode.i_size s.ptr
    (t.set fd { s with ptr := pr.1 }, pr.2)

/-- `fs_ext2_open` (fs_ext2.c lines 50-123).  `bk fn` supplies the
outcome of `ext2_inode_by_path` for the path.  Write or truncate intent
is rejected with EROFS before anything else; then a free slot is
reserved with the `(uint32_t)-1` sentinel; resolution failure frees the
slot and maps `-ENOENT` to EROFS when O_CREAT was requested, plain
ENOENT otherwise, and any other backend error through unchanged;
the directory/non-directory mode checks follow, and on success the slot
is filled with the mode, a zero cursor and the resolved inode. -/
def fs_ext2_open (bk : String → PathRes) (t : List FileHandle) (fn : String)
    (mode : Nat) : List FileHandle × OpenRes :=
  if mode &&& (O_WRONLY ||| O_TRUNC) ≠ 0 then (t, .err erofs)
  else
    match t.findIdx? (fun s => s.inode_num == 0) with
    | none => (t, .err enfile)
    | some fd =>
      let t1 := t.set fd { fhGet t fd with inode_num := SENTINEL }
      match bk fn with
      | .err rv =>
        let t2 := t1.set fd { fhGet t1 fd with inode_num := 0 }
        (t2, .err (if rv = -((enoent : Nat) : Int) then
                     (if mode &&& O_CREAT ≠ 0 then erofs else enoent)
                   else (-rv).toNat))
      | .ok ino num =>
        let s := { fhGet t fd with inode := ino, inode_num := num }
        if ino.i_mode &&& EXT2_S_IFDIR ≠ 0 ∧
           (mode &&& O_WRONLY ≠ 0 ∨ mode &&& O_DIR = 0) then
          (t1.set fd { s with inode_num := 0 }, .err eisdir)
        else if mode &&& O_DIR ≠ 0 ∧ ino.i_mode &&& EXT2_S_IFDIR = 0 then
          (t1.set fd { s with inode_num := 0 }, .err enotdir)
        else
          (t1.set fd { s with mode := mode, ptr := 0 }, .ok (fd + 1))

/-- One call the driver makes while executing a structural operation:
mutex operations, backend inode reference acquisitions/releases
(`ext2_inode_by_path` / `ext2_inode_get` / `ext2_inode_alloc` acquire,
`ext2_inode_put` releases), and the backend mutations that completed
(`ext2_dir_rm_entry`, `ext2_dir_add_entry`, `ext2_dir_redir_entry`,
`ext2_inode_deref`, parent timestamp/link-count updates). -/
inductive Ev where
  | lock
  | unlock
  | iget (n : Nat)
  | iput (n : Nat)
  | rmEnt (dir : Nat) (name : String)
  | addEnt (dir : Nat) (name : String)
  | redirEnt (n : Nat)
  | derefI (n : Nat) (isdir : Bool)
  | touch (n : Nat)
  | linkInc (n : Nat)
  | linkDec (n : Nat)
  deriving DecidableEq, Repr

/-- Whether an event is a completed backend mutation (a directory-entry
or inode-state change, as opposed to locking or pure reference
counting). -/
def isMut : Ev → Bool
  | .rmEnt _ _ => true
  | .addEnt _ _ => true
  | .redirEnt _ => true
  | .derefI _ _ => true
  | .touch _ => true
  | .linkInc _ => true
  | .linkDec _ => true
  | _ => false

/-- The completed backend mutations of a trace, in order. -/
def muts (tr : List Ev) : List Ev := tr.filter isMut

/-- Number of backend inode references a trace acquires. -/
def igets (tr : List Ev) : Nat :=
  (tr.filter fun e => match e with | .iget _ => true | _ => false).length

/-- Number of backend inode references a trace releases. -/
def iputs (tr : List Ev) : Nat :=
  (tr.filter fun e => match e with | .iput _ => true | _ => false).length

/-- The mutex operations of a trace, in order. -/
def mutexEvs (tr : List Ev) : List Ev :=
  tr.filter fun e => match e with | .lock => true | .unlock => true | _ => false

/-- Run a trace's mutex operations against a `MUTEX_TYPE_NORMAL`
(non-reentrant) mutex held `n` times by the calling context: acquiring
while already held never returns (`none`); otherwise the hold count after
the trace is returned. -/
def runLock : Nat → List Ev → Option Nat
  | n, [] => some n
  | n, .lock :: r => if n = 0 then runLock 1 r else none
  | n, .unlock :: r => runLock (n - 1) r
  | n, _ :: r => runLock n r

/-- Split a C path copy at its last '/' (the `strrchr` + `*ent++ = 0`
idiom of the mutators): returns the parent part and the leaf, or `none`
when the string holds no separator. -/
def splitLast : List Char → Option (List Char × List Char)
  | [] => none
  | c :: rest =>
    match splitLast rest with
    | some (a, b) => some (c :: a, b)
    | none => if c = '/' then some ([], rest) else none

/-- `splitLast` on a `String`. -/
def splitPath (s : String) : Option (String × String) :=
  match splitLast s.data with
  | some (a, b) => some (String.mk a, String.mk b)
  | none => none

/-- Outcomes of the backend calls `fs_ext2_unlink` / `fs_ext2_rmdir`
make, in program order.  `strdupOk` models the `strdup` allocation.
`isEmptyRes` is the value `ext2_dir_is_empty` would report for the
target (0 = non-empty, -1 = I/O failure, otherwise empty); it is listed
to make explicit that neither function ever consults it — no
`ext2_dir_is_empty` call appears in either (fs_ext2.c lines 616-747 and
923-1057), unlike `int_rename`. -/
structure DirOpEnv where
  rw : Bool
  strdupOk : Bool
  byPath : PathRes
  dirEnt : Option Ext2Dirent
  igetRes : Option Ext2Inode
  rmEntRes : RmRes
  derefRes : Int
  isEmptyRes : Int
  deriving DecidableEq, Repr

/-- `fs_ext2_unlink` (fs_ext2.c lines 616-747), returning the C return
value, the errno it set (0 when untouched), and the trace of calls it
made.  The busy check scans the whole handle table for the target's
inode number before any mutation; on success the parent's directory
entry is removed and its times updated before the leaf inode is
dereferenced. -/
def fs_ext2_unlink (env : DirOpEnv) (t : List FileHandle) (fn : Option String) :
    Int × Nat × List Ev :=
  match fn with
  | none => (-1, enoent, [])
  | some f =>
    if f = "" then (-1, eperm, [])
    else if env.rw = false then (-1, erofs, [])
    else if env.strdupOk = false then (-1, enomem, [])
    else
      match splitPath f with
      | none => (-1, eperm, [])
      | some (_, ent) =>
        match env.byPath with
        | .err irv => (-1, (-irv).toNat, [.lock, .unlock])
        | .ok pinode pnum =>
          if pinode.i_mode &&& 0xF000 ≠ EXT2_S_IFDIR then
            (-1, enotdir, [.lock, .iget pnum, .iput pnum, .unlock])
          else
            match env.dirEnt with
            | none => (-1, enoent, [.lock, .iget pnum, .iput pnum, .unlock])
            | some d =>
              match env.igetRes with
              | none => (-1, eio, [.lock, .iget pnum, .iput pnum, .unlock])
              | some ino =>
                if ino.i_mode &&& 0xF000 = EXT2_S_IFDIR then
                  (-1, eperm,
                   [.lock, .iget pnum, .iget d.inode, .iput pnum, .iput d.inode,
                    .unlock])
                else if t.any (fun s => s.inode_num == d.inode) then
                  (-1, ebusy,
                   [.lock, .iget pnum, .iget d.inode, .iput pnum, .iput d.inode,
                    .unlock])
                else
                  match env.rmEntRes with
                  | .err irv =>
                    (-1, (-irv).toNat,
                     [.lock, .iget pnum, .iget d.inode, .iput pnum, .iput d.inode,
                      .unlock])
                  | .ok in_num =>
                    if env.derefRes ≠ 0 then
                      (-1, (-env.derefRes).toNat,
                       [.lock, .iget pnum, .iget d.inode, .rmEnt pnum ent,
                        .touch pnum, .iput pnum, .iput d.inode, .unlock])
                    else
                      (0, 0,
                       [.lock, .iget pnum, .iget d.inode, .rmEnt pnum ent,
                        .touch pnum, .iput pnum, .iput d.inode,
                        .derefI in_num false, .unlock])

/-- `fs_ext2_rmdir` (fs_ext2.c lines 923-1057).  Identical shape to
unlink with the directory test inverted, the root path also rejected,
and, on success, the target dereferenced as a directory followed by the
parent's times update and link-count decrement.  No emptiness check of
any kind appears between the busy check and `ext2_dir_rm_entry`.  When
`ext2_inode_deref` fails the parent inode's reference is (faithfully)
not released. -/
def fs_ext2_rmdir (env : DirOpEnv) (t : List FileHandle) (fn : Option String) :
    Int × Nat × List Ev :=
  match fn with
  | none => (-1, enoent, [])
  | some f =>
    if f = "" ∨ f = "/" then (-1, eperm, [])
    else if env.rw = false then (-1, erofs, [])
    else if env.strdupOk = false then (-1, enomem, [])
    else
      match splitPath f with
      | none => (-1, eperm, [])
      | some (_, ent) =>
        match env.byPath with
        | .err irv => (-1, (-irv).toNat, [.lock, .unlock])
        | .ok pinode pnum =>
          if pinode.i_mode &&& 0xF000 ≠ EXT2_S_IFDIR then
            (-1, enotdir, [.lock, .iget pnum, .iput pnum, .unlock])
          else
            match env.dirEnt with
            | none => (-1, enoent, [.lock, .iget pnum, .iput pnum, .unlock])
            | some d =>
              match env.igetRes with
              | none => (-1, eio, [.lock, .iget pnum, .iput pnum, .unlock])
              | some ino =>
                if ino.i_mode &&& 0xF000 ≠ EXT2_S_IFDIR then
                  (-1, eperm,
                   [.lock, .iget pnum, .iget d.inode, .iput pnum, .iput d.inode,
                    .unlock])
                else if t.any (fun s => s.inode_num == d.inode) then
                  (-1, ebusy,
                   [.lock, .iget pnum, .iget d.inode, .iput pnum, .iput d.inode,
                    .unlock])
                else
                  match env.rmEntRes with
                  | .err irv =>
                    (-1, (-irv).toNat,
                     [.lock, .iget pnum, .iget d.inode, .iput pnum, .iput d.inode,
                      .unlock])
                  | .ok in_num =>
                    if env.derefRes ≠ 0 then
                      (-1, (-env.derefRes).toNat,
                       [.lock, .iget pnum, .iget d.inode, .rmEnt pnum ent,
                        .iput d.inode, .unlock])
                    else
                      (0, 0,
                       [.lock, .iget pnum, .iget d.inode, .rmEnt pnum ent,
                        .iput d.inode, .derefI in_num true, .touch pnum,
                        .linkDec pnum, .iput pnum, .unlock])

/-- Outcomes of the backend calls the rename pair
(`fs_ext2_rename` / `int_rename`) makes, in program order:
source-parent resolution, source entry lookup and inode fetch, then
inside `int_rename` the destination-parent resolution, destination
entry lookup, inode fetch, emptiness check (0 = non-empty, -1 = I/O
failure, otherwise empty), destination entry removal, destination inode
dereference, new-entry insertion, source entry removal and `..`
redirection. -/
structure RenameEnv where
  rw : Bool
  strdup1 : Bool
  strdup2 : Bool
  byPath1 : PathRes
  dirEnt1 : Option Ext2Dirent
  igetSrc : Option Ext2Inode
  byPath2 : PathRes
  dirEnt2 : Option Ext2Dirent
  igetDst : Option Ext2Inode
  isEmptyRes : Int
  rmDst : RmRes
  derefDst : Int
  addEnt : Int
  rmSrc : RmRes
  redirEnt : Int
  deriving DecidableEq, Repr

/-- The tail of `int_rename` after the destination-overwrite handling
(fs_ext2.c lines 483-512): insert the new entry, remove the source
entry, and for a moved directory redirect its ".." entry and fix both
parents' link counts.  `tr0` is the trace accumulated so far.  On the
`ext2_dir_redir_entry` failure path the source is faithfully returned
without releasing the destination parent's inode reference (lines
500-502). -/
def int_rename_tail (env : RenameEnv) (tr0 : List Ev) (srcLeaf ent : String)
    (pnum dpnum fnum : Nat) (isfile : Bool) : Int × List Ev :=
  if env.addEnt ≠ 0 then (-((eio : Nat) : Int), tr0 ++ [.iput dpnum])
  else
    match env.rmSrc with
    | .err _ => (-((eio : Nat) : Int), tr0 ++ [.addEnt dpnum ent, .iput dpnum])
    | .ok _ =>
      if isfile then
        (0, tr0 ++ [.addEnt dpnum ent, .rmEnt pnum srcLeaf, .iput dpnum])
      else if env.redirEnt ≠ 0 then
        (-((eio : Nat) : Int), tr0 ++ [.addEnt dpnum ent, .rmEnt pnum srcLeaf])
      else
        (0, tr0 ++ [.addEnt dpnum ent, .rmEnt pnum srcLeaf, .redirEnt fnum,
                    .linkDec pnum, .linkInc dpnum, .iput dpnum])

/-- `int_rename` (fs_ext2.c lines 366-513): split the destination path,
resolve its parent, and if a destination entry exists run the
type/emptiness/busy checks and remove it before handing over to
`int_rename_tail`.  `srcLeaf` is the source leaf name (the `fn1`
argument), `pnum` the source parent's inode number, `fnum` the moved
object's inode number. -/
def int_rename (env : RenameEnv) (t : List FileHandle) (srcLeaf fn2 : String)
    (pnum fnum : Nat) (isfile : Bool) : Int × List Ev :=
  if env.strdup2 = false then (-((enomem : Nat) : Int), [])
  else
    match splitPath fn2 with
    | none => (-((einval : Nat) : Int), [])
    | some (_, ent) =>
      match env.byPath2 with
      | .err irv => (irv, [])
      | .ok dpinode dpnum =>
        if dpinode.i_mode &&& 0xF000 ≠ EXT2_S_IFDIR then
          (-((enotdir : Nat) : Int), [.iget dpnum, .iput dpnum])
        else
          match env.dirEnt2 with
          | none => int_rename_tail env [.iget dpnum] srcLeaf ent pnum dpnum fnum isfile
          | some dent =>
            match env.igetDst with
            | none => (-((eio : Nat) : Int), [.iget dpnum, .iput dpnum])
            | some dinode =>
              let isdir := dinode.i_mode &&& 0xF000 = EXT2_S_IFDIR
              if isdir ∧ isfile then
                (-((eisdir : Nat) : Int),
                 [.iget dpnum, .iget dent.inode, .iput dent.inode, .iput dpnum])
              else if isdir ∧ env.isEmptyRes = 0 then
                (-((enotempty : Nat) : Int),
                 [.iget dpnum, .iget dent.inode, .iput dent.inode, .iput dpnum])
              else if isdir ∧ env.isEmptyRes = -1 then
                (-((eio : Nat) : Int),
                 [.iget dpnum, .iget dent.inode, .iput dent.inode, .iput dpnum])
              else if t.any (fun s => s.inode_num == dent.inode) then
                (-((ebusy : Nat) : Int),
                 [.iget dpnum, .iget dent.inode, .iput dent.inode, .iput dpnum])
              else
                match env.rmDst with
                | .err _ =>
                  (-((eio : Nat) : Int),
                   [.iget dpnum, .iget dent.inode, .iput dpnum, .iput dent.inode])
                | .ok tmp =>
                  if env.derefDst ≠ 0 then
                    (-((eio : Nat) : Int),
                     [.iget dpnum, .iget dent.inode, .rmEnt dpnum ent,
                      .iput dent.inode, .iput dpnum])
                  else
                    int_rename_tail env
                      ([.iget dpnum, .iget dent.inode, .rmEnt dpnum ent,
                        .iput dent.inode, .derefI tmp isdir] ++
                       (if isdir then [.linkDec dpnum] else []))
                      srcLeaf ent pnum dpnum fnum isfile

/-- `fs_ext2_rename` (fs_ext2.c lines 515-614): argument checks, split
of the source path, source-parent resolution, source entry lookup and
inode fetch, then `int_rename` with `isfile` per the source's type.
Two source slips are transcribed verbatim: on `ext2_inode_get` failure
(lines 586-591) the function returns without releasing the source
parent's inode reference, and the final statement before `return`
(line 612) is `mutex_lock`, not `mutex_unlock`. -/
def fs_ext2_rename (env : RenameEnv) (t : List FileHandle)
    (fn1 fn2 : Option String) : Int × Nat × List Ev :=
  match fn1, fn2 with
  | none, _ => (-1, enoent, [])
  | some _, none => (-1, enoent, [])
  | some f1, some _f2 =>
    if f1 = "" then (-1, einval, [])
    else if env.rw = false then (-1, erofs, [])
    else if env.strdup1 = false then (-1, enomem, [])
    else
      match splitPath f1 with
      | none => (-1, einval, [])
      | some (_, ent) =>
        match env.byPath1 with
        | .err irv => (-1, (-irv).toNat, [.lock, .unlock])
        | .ok pinode pnum =>
          if pinode.i_mode &&& 0xF000 ≠ EXT2_S_IFDIR then
            (-1, enotdir, [.lock, .iget pnum, .iput pnum, .unlock])
          else
            match env.dirEnt1 with
            | none => (-1, enoent, [.lock, .iget pnum, .iput pnum, .unlock])
            | some d =>
              match env.igetSrc with
              | none => (-1, eio, [.lock, .iget pnum, .unlock])
              | some inode =>
                let isfile := inode.i_mode &&& 0xF000 ≠ EXT2_S_IFDIR
                let ir := int_rename env t ent _f2 pnum d.inode isfile
                let total := [Ev.lock, Ev.iget pnum, Ev.iget d.inode] ++ ir.2 ++
                             [Ev.iput pnum, Ev.iput d.inode, Ev.lock]
                if ir.1 < 0 then (-1, (-ir.1).toNat, total) else (ir.1, 0, total)

/-- Outcomes of the steps of `fs_ext2_mount`: global-init flag, whether
the block device supports writing, and the success of
`ext2_fs_init`, the two `malloc`s and `nmmgr_handler_add`. -/
structure MountEnv where
  initted : Bool
  devWritable : Bool
  fsInitOk : Bool
  mallocMnt : Bool
  mallocVfsh : Bool
  nmmgrAddOk : Bool
  deriving DecidableEq, Repr

/-- Cleanup calls a failing mount performs. -/
inductive MEv where
  | fsShutdown
  | freeMnt
  | freeVfsh
  deriving DecidableEq, Repr

/-- One record of the `ext2_fses` mount registry. -/
structure FsMount where
  path : String
  flags : Nat
  deriving DecidableEq, Repr

/-- `fs_ext2_mount` (fs_ext2.c lines 1129-1192), returning the registry
after the call, the return value, and the cleanup calls made.  The
mount record is inserted at the head of `ext2_fses` via
`LIST_INSERT_HEAD` *before* `nmmgr_handler_add`; the
`nmmgr_handler_add` failure path frees the record and the VFS handler
but performs no `LIST_REMOVE`, so the registry it returns still holds
the (freed) record — transcribed verbatim. -/
def fs_ext2_mount (env : MountEnv) (reg : List FsMount) (mp : String)
    (flags : Nat) : List FsMount × Int × List MEv :=
  if env.initted = false then (reg, -1, [])
  else if flags &&& FS_EXT2_MOUNT_READWRITE ≠ 0 ∧ env.devWritable = false then
    (reg, -1, [])
  else if env.fsInitOk = false then (reg, -1, [])
  else if env.mallocMnt = false then (reg, -1, [.fsShutdown])
  else if env.mallocVfsh = false then (reg, -1, [.freeMnt, .fsShutdown])
  else
    let reg2 : List FsMount := { path := mp, flags := flags } :: reg
    if env.nmmgrAddOk = false then
      (reg2, -1, [.freeVfsh, .freeMnt, .fsShutdown])
    else
      (reg2, 0, [])

/-- `fs_ext2_unmount` (fs_ext2.c lines 1194-1222): find the first
registry record whose path matches, remove it and return 0; ENOENT
(-1) otherwise. -/
def fs_ext2_unmount (reg : List FsMount) (mp : String) : List FsMount × Int :=
  if (reg.find? fun m => m.path == mp).isSome then
    (reg.eraseP (fun m => m.path == mp), 0)
  else
    (reg, -1)

/-- A regular file's inode: mode 0100644, 10 bytes. -/
def fileIno : Ext2Inode := ⟨0x81A4, 10, 1, 0⟩

/-- A directory's inode: mode 040755, 1024 bytes of entries. -/
def dirIno : Ext2Inode := ⟨0x41ED, 1024, 2, 0⟩

/-- The handle table right after `fs_ext2_init` (all 16 slots zeroed). -/
def freeT : List FileHandle := List.replicate 16 default

/-- Table for the seek examples: slot 0 holds inode 7 of a 10-byte file,
cursor at 5. -/
def T4 : List FileHandle := freeT.set 0 ⟨7, O_RDONLY, 5, fileIno⟩

/-- Table for the close examples: slot 0 holds an open file handle. -/
def T6 : List FileHandle := freeT.set 0 ⟨12, O_RDONLY, 0, fileIno⟩

/-- Table for the read example: slot 0 holds inode 12 of a 10-byte file,
cursor at 0. -/
def T7 : List FileHandle := freeT.set 0 ⟨12, O_RDONLY, 0, fileIno⟩

/-- Table for the readdir example: slot 0 holds an open directory
handle. -/
def T8 : List FileHandle := freeT.set 0 ⟨3, O_RDONLY ||| O_DIR, 0, dirIno⟩

/-- Directory backend for the readdir example: block size 4, every
fetch succeeds, offset 0 holds a tombstone (inode 0, record length 12),
later offsets a live entry. -/
def B8 : DirBackend :=
  ⟨2, fun _ => true,
   fun p => if p = 0 then ⟨0, 12, 1, "x"⟩ else ⟨7, 12, 1, "y"⟩,
   fun _ => some fileIno⟩

/-- Table for the unlink example: slot 0 holds an open handle on inode
12, the unlink target. -/
def T9 : List FileHandle := freeT.set 0 ⟨12, O_RDONLY, 0, fileIno⟩

/-- Backend outcomes for the unlink example: read-write mount, parent
directory inode 2 resolves, the leaf "x" is inode 12, a regular file;
entry removal and the final dereference succeed. -/
def U9 : DirOpEnv := ⟨true, true, .ok dirIno 2, some ⟨12, 16, 1, "x"⟩,
                      some fileIno, .ok 12, 0, 1⟩

/-- Backend outcomes for the rmdir example: read-write mount, parent
directory inode 2 resolves, the leaf "d" is inode 9, itself a directory,
and `ext2_dir_is_empty` would report it NON-empty (`isEmptyRes = 0`);
entry removal and the dereference succeed. -/
def U10 : DirOpEnv := ⟨true, true, .ok dirIno 2, some ⟨9, 16, 1, "d"⟩,
                       some dirIno, .ok 9, 0, 0⟩

/-- Backend outcomes for a fully successful file rename from "/a/x" to
"/b/y": both parents resolve (inodes 2 and 3), the source entry is
inode 12 (a regular file), no destination entry exists, and every
mutation succeeds. -/
def E1 : RenameEnv := ⟨true, true, true, .ok dirIno 2, some ⟨12, 16, 1, "x"⟩,
                       some fileIno, .ok dirIno 3, none, none, 1, .ok 0, 0, 0,
                       .ok 12, 0⟩

/-- Backend outcomes for a rename whose `ext2_inode_get` on the source
entry fails (fs_ext2.c line 587): everything up to and including the
source entry lookup succeeds, the inode fetch returns NULL. -/
def E3 : RenameEnv := ⟨true, true, true, .ok dirIno 2, some ⟨12, 16, 1, "x"⟩,
                       none, .ok dirIno 3, none, none, 1, .ok 0, 0, 0,
                       .ok 12, 0⟩

/-- Mount-step outcomes where everything succeeds except the final
`nmmgr_handler_add` (VFS registration). -/
def E2 : MountEnv := ⟨true, true, true, true, true, false⟩

/-- Path-resolution backend for the open example: every path resolves
to regular-file inode 12 (in particular, the opened path exists). -/
def bk5 : String → PathRes := fun _ => .ok fileIno 12

/-- Path-resolution backend where no path exists: `ext2_inode_by_path`
always fails with `-ENOENT`. -/
def bk5m : String → PathRes := fun _ => .err (-((enoent : Nat) : Int))

theorem fhGet_set_self (t : List FileHandle) (fd : Nat) (v : FileHandle)
    (h : fd < t.length) : fhGet (t.set fd v) fd = v := by
  induction t generalizing fd with
  | nil => simp at h
  | cons a l ih =>
    cases fd with
    | zero => rfl
    | succ n =>
      have hn : n < l.length := by simpa using h
      simpa [fhGet, List.getD] using ih n hn

theorem fhGet_set_ne (t : List FileHandle) (fd j : Nat) (v : FileHandle)
    (h : j ≠ fd) : fhGet (t.set fd v) j = fhGet t j := by
  induction t generalizing fd j with
  | nil => rfl
  | cons a l ih =>
    cases fd with
    | zero =>
      cases j with
      | zero => exact absurd rfl h
      | succ m => rfl
    | succ n =>
      cases j with
      | zero => rfl
      | succ m =>
        have hm : m ≠ n := fun hc => h (by simp [hc])
        simpa [fhGet, List.getD] using ih n m hm

theorem fhGet_mem (t : List FileHandle) (fd : Nat) (h : fd < t.length) :
    fhGet t fd ∈ t := by
  induction t generalizing fd with
  | nil => simp at h
  | cons a l ih =>
    cases fd with
    | zero => exact List.mem_cons_self a l
    | succ n =>
      have hn : n < l.length := by simpa using h
      exact List.mem_cons_of_mem a (by simpa [fhGet, List.getD] using ih n hn)

theorem clampSz_eq_min (p s : Nat) : clampSz p s = min p s := by
  simp only [clampSz, Nat.min_def]
  split <;> split <;> omega

theorem sub64_of_le (a b : Nat) (hb : b ≤ a) (ha : a < U64) :
    sub64 a b = a - b := by
  have h2 : U64 = 18446744073709551616 := by norm_num [U64]
  rw [h2] at ha
  simp only [sub64, h2]
  omega

/-- C1: on the concrete fully-successful rename environment `E1`, the
trace of `fs_ext2_rename` contains exactly two mutex operations, both
acquisitions (the final statement of the source is `mutex_lock`, fs
fs_ext2.c line 612, where `mutex_unlock` belongs), so running the trace
against the free non-reentrant global mutex deadlocks: the lock is
acquired while already held and is never released before the operation
returns.  This refutes the claim that every completed rename releases
the single global mutex and never acquires it while holding it. -/
theorem C1_rename_relocks_instead_of_unlocking :
    mutexEvs (fs_ext2_rename E1 freeT (some "/a/x") (some "/b/y")).2.2 =
      [Ev.lock, Ev.lock] ∧
    runLock 0 (fs_ext2_rename E1 freeT (some "/a/x") (some "/b/y")).2.2 =
      none := by
  decide

/-- C2: when every mount step succeeds except the final VFS registration
(`nmmgr_handler_add`), `fs_ext2_mount` fails (-1) after having inserted
the mount record into the `ext2_fses` registry with `LIST_INSERT_HEAD`,
and its cleanup frees the record (`free(mnt)`) without a `LIST_REMOVE`:
the registry returned is not the pre-call registry (here `[]`), the
freed record is still in it, and a subsequent `fs_ext2_unmount` of the
same path finds it (returns 0).  This refutes the claim that a failing
mount leaves the global mount registry exactly as it was with no
partially-constructed record reachable. -/
theorem C2_mount_failure_leaves_freed_record_registered :
    (fs_ext2_mount E2 [] "/ext2" 0).2.1 = -1 ∧
    (fs_ext2_mount E2 [] "/ext2" 0).1 = [{ path := "/ext2", flags := 0 }] ∧
    MEv.freeMnt ∈ (fs_ext2_mount E2 [] "/ext2" 0).2.2 ∧
    (fs_ext2_unmount (fs_ext2_mount E2 [] "/ext2" 0).1 "/ext2").2 = 0 := by
  decide

/-- C3: on the concrete environment `E3`, where the source entry's
`ext2_inode_get` fails (fs_ext2.c lines 586-591), `fs_ext2_rename`
returns -1 with errno EIO after acquiring one backend inode reference
(the source parent, from `ext2_inode_by_path`) and releasing none: the
exit path omits the `ext2_inode_put(pinode)` that the analogous paths
of `fs_ext2_unlink` (line 690) and `fs_ext2_rmdir` (line 996) perform.
This refutes the claim that every operation's backend inode releases
equal its acquisitions on every exit path. -/
theorem C3_rename_iget_failure_leaks_parent_reference :
    (fs_ext2_rename E3 freeT (some "/a/x") (some "/b/y")).1 = -1 ∧
    (fs_ext2_rename E3 freeT (some "/a/x") (some "/b/y")).2.1 = eio ∧
    igets (fs_ext2_rename E3 freeT (some "/a/x") (some "/b/y")).2.2 = 1 ∧
    iputs (fs_ext2_rename E3 freeT (some "/a/x") (some "/b/y")).2.2 = 0 := by
  decide

/-- C4 counterexample: on a 10-byte file with cursor 5, `seek(h, -1,
SEEK_SET)` — an offset that would place the cursor below zero — sets the
cursor to 10 (the file size, after the `uint64_t` wraparound of -1 is
clamped) and returns 10, not 0 as the claim states. -/
theorem C4_cx_negative_offset_clamps_to_size_not_zero :
    (fs_ext2_seek T4 1 (-1) SEEK_SET).2 = SeekRes.ok 10 ∧
    (fhGet (fs_ext2_seek T4 1 (-1) SEEK_SET).1 0).ptr = 10 ∧
    (10 : Nat) ≠ 0 := by
  decide

/-- C4 (amended): for every valid non-directory handle, seek with
SEEK_SET/SEEK_CUR/SEEK_END computes the new cursor in unsigned 64-bit
arithmetic and clamps the result to at most the file size, storing and
returning it — so the final cursor is always in `[0, size]` and seeking
past end-of-file silently truncates to the size, but an offset that
would make the cursor negative wraps modulo `2 ^ 64` and is clamped to
the file size, not to 0; any other whence fails (without touching
errno) and leaves the table unchanged. -/
theorem C4_seek_wraps64_and_clamps_to_size (t : List FileHandle) (hnd : Nat)
    (off wh : Int)
    (hfd : hnd - 1 < MAX_EXT2_FILES)
    (hopen : (fhGet t (hnd - 1)).inode_num ≠ 0)
    (hndir : (fhGet t (hnd - 1)).mode &&& O_DIR = 0) :
    (wh = SEEK_SET →
      fs_ext2_seek t hnd off wh =
        (t.set (hnd - 1) { fhGet t (hnd - 1) with
           ptr := min (u64 off) (fhGet t (hnd - 1)).inode.i_size },
         SeekRes.ok (min (u64 off) (fhGet t (hnd - 1)).inode.i_size))) ∧
    (wh = SEEK_CUR →
      fs_ext2_seek t hnd off wh =
        (t.set (hnd - 1) { fhGet t (hnd - 1) with
           ptr := min (u64 (((fhGet t (hnd - 1)).ptr : Int) + off))
                      (fhGet t (hnd - 1)).inode.i_size },
         SeekRes.ok (min (u64 (((fhGet t (hnd - 1)).ptr : Int) + off))
                         (fhGet t (hnd - 1)).inode.i_size))) ∧
    (wh = SEEK_END →
      fs_ext2_seek t hnd off wh =
        (t.set (hnd - 1) { fhGet t (hnd - 1) with
           ptr := min (u64 (((fhGet t (hnd - 1)).inode.i_size : Int) + off))
                      (fhGet t (hnd - 1)).inode.i_size },
         SeekRes.ok (min (u64 (((fhGet t (hnd - 1)).inode.i_size : Int) + off))
                         (fhGet t (hnd - 1)).inode.i_size))) ∧
    (wh ≠ SEEK_SET → wh ≠ SEEK_CUR → wh ≠ SEEK_END →
      fs_ext2_seek t hnd off wh = (t, SeekRes.err none)) ∧
    (∀ p, (fs_ext2_seek t hnd off wh).2 = SeekRes.ok p →
      p ≤ (fhGet t (hnd - 1)).inode.i_size) := by
  have hg : ¬(MAX_EXT2_FILES ≤ hnd - 1 ∨ (fhGet t (hnd - 1)).inode_num = 0 ∨
              (fhGet t (hnd - 1)).mode &&& O_DIR ≠ 0) := by
    simp only [not_or]
    exact ⟨by omega, hopen, fun hc => hc hndir⟩
  refine ⟨?_, ?_, ?_, ?_, ?_⟩
  · intro h
    subst h
    simp [fs_ext2_seek, hg, clampSz_eq_min, Nat.min_comm]
  · intro h
    subst h
    simp [fs_ext2_seek, hg, clampSz_eq_min, SEEK_CUR, SEEK_SET, Nat.min_comm]
  · intro h
    subst h
    simp [fs_ext2_seek, hg, clampSz_eq_min, SEEK_END, SEEK_SET, SEEK_CUR,
          Nat.min_comm]
  · intro h0 h1 h2
    simp [fs_ext2_seek, hg, h0, h1, h2]
  · intro p hp
    revert hp
    simp only [fs_ext2_seek, if_neg hg, clampSz_eq_min]
    split_ifs <;> intro hp <;> simp_all <;> omega

/-- C6: for any open handle (in-range slot with nonzero inode number and
nonzero mode, as every handle returned by `fs_ext2_open` has), after
`fs_ext2_close` the slot is free and: read, seek, tell, total-size and
readdir on the same handle all fail with the invalid-handle error
EINVAL (read and readdir for every backend and count, seek for every
offset and whence) without touching the table; a second close is a
no-op returning the table unchanged; and close of any invalid handle —
one whose slot's mode is zero (never opened, or already closed) or
whose index is out of range — is a no-op on the table. -/
theorem C6_close_invalidates_and_is_idempotent (t : List FileHandle)
    (hnd : Nat)
    (hfd : hnd - 1 < MAX_EXT2_FILES) (hlen : t.length = 16)
    (hopen : (fhGet t (hnd - 1)).inode_num ≠ 0)
    (hmode : (fhGet t (hnd - 1)).mode ≠ 0) :
    ((fhGet (fs_ext2_close t hnd) (hnd - 1)).inode_num = 0 ∧
     (fhGet (fs_ext2_close t hnd) (hnd - 1)).mode = 0) ∧
    (∀ okB lbs cnt, fs_ext2_read okB lbs (fs_ext2_close t hnd) hnd cnt =
        (fs_ext2_close t hnd, ReadRes.err einval)) ∧
    (∀ off wh, fs_ext2_seek (fs_ext2_close t hnd) hnd off wh =
        (fs_ext2_close t hnd, SeekRes.err (some einval))) ∧
    (fs_ext2_tell (fs_ext2_close t hnd) hnd = TellRes.err einval) ∧
    (fs_ext2_total (fs_ext2_close t hnd) hnd = TellRes.err einval) ∧
    (∀ b, fs_ext2_readdir b (fs_ext2_close t hnd) hnd =
        (fs_ext2_close t hnd, RdRes.err einval)) ∧
    (fs_ext2_close (fs_ext2_close t hnd) hnd = fs_ext2_close t hnd) ∧
    (∀ hnd2, (fhGet t (hnd2 - 1)).mode = 0 ∨ MAX_EXT2_FILES ≤ hnd2 - 1 →
        fs_ext2_close t hnd2 = t) := by
  have h16 : MAX_EXT2_FILES = 16 := rfl
  have hl : hnd - 1 < t.length := by omega
  have ht : fs_ext2_close t hnd =
      t.set (hnd - 1) { fhGet t (hnd - 1) with inode_num := 0, mode := 0 } := by
    have hc : (hnd - 1 < MAX_EXT2_FILES ∧ (fhGet t (hnd - 1)).mode ≠ 0) :=
      ⟨hfd, hmode⟩
    simp only [fs_ext2_close, if_pos hc]
  have hslot : fhGet (fs_ext2_close t hnd) (hnd - 1) =
      { fhGet t (hnd - 1) with inode_num := 0, mode := 0 } := by
    rw [ht]
    exact fhGet_set_self t (hnd - 1) _ hl
  refine ⟨⟨by rw [hslot], by rw [hslot]⟩, ?_, ?_, ?_, ?_, ?_, ?_, ?_⟩
  · intro okB lbs cnt
    simp [fs_ext2_read, hslot]
  · intro off wh
    simp [fs_ext2_seek, hslot]
  · simp [fs_ext2_tell, hslot]
  · simp [fs_ext2_total, hslot]
  · intro b
    simp [fs_ext2_readdir, hslot]
  · conv_lhs => rw [fs_ext2_close]
    simp [hslot]
  · intro hnd2 hbad
    simp only [fs_ext2_close]
    split
    · next hc =>
      rcases hbad with hb | hb
      · exact absurd hb (by simpa using hc.2)
      · exact absurd hc.1 (by omega)
    · rfl

theorem readLoop_ok_ptr (okB : Nat → Bool) (lbs : Nat) :
    ∀ cnt ptr p, readLoop okB lbs ptr cnt = (p, true) → p = ptr + cnt := by
  intro cnt
  induction cnt using Nat.strong_induction_on with
  | _ cnt ih =>
    intro ptr p h
    rw [readLoop] at h
    split at h
    · next h0 =>
      injection h with h1 h2
      omega
    · split at h
      · next hb =>
        injection h with h1 h2
        exact absurd h2 (by simp)
      · split at h
        · next hlt =>
          have hp : 0 < 2 ^ lbs := Nat.pos_pow_of_pos lbs (by omega)
          have hrec := ih (cnt - 2 ^ lbs) (by omega) (ptr + 2 ^ lbs) p h
          omega
        · next hge =>
          injection h with h1 h2
          omega

/-- C7: for every valid open non-directory handle (cursor within the
file, as the driver maintains), whenever `fs_ext2_read` returns success
with `n` bytes, `n` is exactly `min(cnt, size - cursor)` — never more
than total size minus the cursor at call time — and the slot's cursor
afterwards is the old cursor plus `n`; by the same equation a call can
never report a short success when a mid-read block fetch fails (every
success reports the full clamped count; fetch failure yields `err`). -/
theorem C7_read_returns_min_and_advances_cursor (okB : Nat → Bool)
    (lbs : Nat) (t t2 : List FileHandle) (hnd cnt0 n : Nat)
    (hfd : hnd - 1 < MAX_EXT2_FILES) (hlen : t.length = 16)
    (hopen : (fhGet t (hnd - 1)).inode_num ≠ 0)
    (hndir : (fhGet t (hnd - 1)).mode &&& O_DIR = 0)
    (hptr : (fhGet t (hnd - 1)).ptr ≤ (fhGet t (hnd - 1)).inode.i_size)
    (hsz : (fhGet t (hnd - 1)).inode.i_size < U64)
    (hres : fs_ext2_read okB lbs t hnd cnt0 = (t2, ReadRes.ok n)) :
    n = min cnt0 ((fhGet t (hnd - 1)).inode.i_size - (fhGet t (hnd - 1)).ptr) ∧
    (fhGet t2 (hnd - 1)).ptr = (fhGet t (hnd - 1)).ptr + n := by
  have h16 : MAX_EXT2_FILES = 16 := rfl
  have hl : hnd - 1 < t.length := by omega
  have hg : ¬(MAX_EXT2_FILES ≤ hnd - 1 ∨ (fhGet t (hnd - 1)).inode_num = 0 ∨
              (fhGet t (hnd - 1)).mode &&& O_DIR ≠ 0) := by
    simp only [not_or]
    exact ⟨by omega, hopen, fun hc => hc hndir⟩
  have hpos : 0 < 2 ^ lbs := Nat.pos_pow_of_pos lbs (by omega)
  simp only [fs_ext2_read, if_neg hg] at hres
  set S := fhGet t (hnd - 1) with hS
  set C : Nat := (if S.inode.i_size < S.ptr + cnt0 then
      sub64 S.inode.i_size S.ptr else cnt0) with hC
  have hsub : sub64 S.inode.i_size S.ptr = S.inode.i_size - S.ptr :=
    sub64_of_le _ _ hptr hsz
  have hCmin : C = min cnt0 (S.inode.i_size - S.ptr) := by
    rw [hC]
    split
    · next hcl => rw [hsub]; omega
    · next hcl => omega
  split at hres
  · -- bo = S.ptr % bs is nonzero: first block handled specially
    next hbo =>
    split at hres
    · -- the first block fetch failed: an error, not a short count
      injection hres with hA hB
      injection hB
    · -- first block copied, then the loop ran
      split at hres
      · next p heq =>
        injection hres with hA hB
        injection hB with hB
        subst hA
        subst hB
        have hfin := readLoop_ok_ptr okB lbs _ _ _ heq
        rw [fhGet_set_self t (hnd - 1) _ hl]
        refine ⟨hCmin, ?_⟩
        show p = S.ptr + C
        split at hfin <;> simp only [] at hfin <;> omega
      · next p heq =>
        injection hres with hA hB
        injection hB
  · -- bo = 0: the loop alone
    next hbo =>
    split at hres
    · next p heq =>
      injection hres with hA hB
      injection hB with hB
      subst hA
      subst hB
      have hfin := readLoop_ok_ptr okB lbs _ _ _ heq
      rw [fhGet_set_self t (hnd - 1) _ hl]
      refine ⟨hCmin, ?_⟩
      show p = S.ptr + C
      omega
    · next p heq =>
      injection hres with hA hB
      injection hB

/-- C8: for every valid directory handle: once the cursor has reached
or passed the directory size, readdir signals end-of-directory (not an
error) and returns no entry, the cursor unchanged; an entry with zero
record length at the cursor makes readdir fail with EBADF (corrupted
directory), the cursor unchanged; and an entry with inode number zero
(a tombstone) is skipped transparently — the whole call behaves exactly
as the same call started with the cursor advanced past the tombstone by
its record length, so a tombstoned entry is never returned. -/
theorem C8_readdir_skips_tombstones_and_bounds (b : DirBackend)
    (t : List FileHandle) (hnd : Nat)
    (hfd : hnd - 1 < MAX_EXT2_FILES) (hlen : t.length = 16)
    (hopen : (fhGet t (hnd - 1)).inode_num ≠ 0)
    (hdir : (fhGet t (hnd - 1)).mode &&& O_DIR ≠ 0) :
    ((fhGet t (hnd - 1)).inode.i_size ≤ (fhGet t (hnd - 1)).ptr →
      fs_ext2_readdir b t hnd =
        (t.set (hnd - 1) (fhGet t (hnd - 1)), RdRes.endDir)) ∧
    ((fhGet t (hnd - 1)).ptr < (fhGet t (hnd - 1)).inode.i_size →
     b.blockOk ((fhGet t (hnd - 1)).ptr / 2 ^ b.lbs) = true →
     (b.dentAt (fhGet t (hnd - 1)).ptr).rec_len = 0 →
      fs_ext2_readdir b t hnd =
        (t.set (hnd - 1) (fhGet t (hnd - 1)), RdRes.err ebadf)) ∧
    ((fhGet t (hnd - 1)).ptr < (fhGet t (hnd - 1)).inode.i_size →
     b.blockOk ((fhGet t (hnd - 1)).ptr / 2 ^ b.lbs) = true →
     (b.dentAt (fhGet t (hnd - 1)).ptr).rec_len ≠ 0 →
     (b.dentAt (fhGet t (hnd - 1)).ptr).inode = 0 →
      fs_ext2_readdir b t hnd =
        fs_ext2_readdir b
          (t.set (hnd - 1) { fhGet t (hnd - 1) with
             ptr := (fhGet t (hnd - 1)).ptr +
                    (b.dentAt (fhGet t (hnd - 1)).ptr).rec_len })
          hnd) := by
  have h16 : MAX_EXT2_FILES = 16 := rfl
  have hl : hnd - 1 < t.length := by omega
  have hg : ¬(MAX_EXT2_FILES ≤ hnd - 1 ∨ (fhGet t (hnd - 1)).inode_num = 0 ∨
              (fhGet t (hnd - 1)).mode &&& O_DIR = 0) := by
    simp only [not_or]
    exact ⟨by omega, hopen, hdir⟩
  refine ⟨?_, ?_, ?_⟩
  · intro hend
    rw [fs_ext2_readdir]
    simp only [if_neg hg]
    rw [readdirLoop]
    simp only [dif_pos hend]
  · intro hin hblk hrl
    rw [fs_ext2_readdir]
    simp only [if_neg hg]
    rw [readdirLoop]
    simp only [dif_neg (by omega : ¬ (fhGet t (hnd - 1)).inode.i_size ≤
      (fhGet t (hnd - 1)).ptr), hblk, dif_pos hrl]
    simp
  · intro hin hblk hrl hts
    have hs2 : fhGet (t.set (hnd - 1) { fhGet t (hnd - 1) with
        ptr := (fhGet t (hnd - 1)).ptr +
               (b.dentAt (fhGet t (hnd - 1)).ptr).rec_len }) (hnd - 1) =
        { fhGet t (hnd - 1) with
          ptr := (fhGet t (hnd - 1)).ptr +
                 (b.dentAt (fhGet t (hnd - 1)).ptr).rec_len } :=
      fhGet_set_self t (hnd - 1) _ hl
    conv_lhs => rw [fs_ext2_readdir]
    conv_rhs => rw [fs_ext2_readdir]
    simp only [hs2]
    rw [if_neg hg, if_neg (by simpa using hg)]
    conv_lhs => rw [readdirLoop]
    simp only [dif_neg (by omega : ¬ (fhGet t (hnd - 1)).inode.i_size ≤
      (fhGet t (hnd - 1)).ptr), hblk, dif_neg hrl, if_pos hts]
    simp [List.set_set]

/-- C5 counterexample: with all 16 slots free and a backend in which the
path exists as a regular file, `fs_ext2_open` with mode `O_CREAT` (a
mode containing the create flag, but no write or truncate flag)
succeeds and returns handle 1 — it does not fail with EROFS as the
claim states for every mode containing the create flag. -/
theorem C5_cx_creat_on_existing_path_succeeds :
    (fs_ext2_open bk5 freeT "/a/f" O_CREAT).2 = OpenRes.ok 1 := by
  decide

/-- C5 (amended): open rejects write or truncate intent up front with
EROFS, touching nothing; create intent alone is not rejected up front —
it is mapped to EROFS only when path resolution fails with not-found
(so a create-intent open of a nonexistent path reports EROFS, not plain
not-found, and no handle is allocated), while an open without create
intent of a nonexistent path reports ENOENT, also allocating no
handle. -/
theorem C5_open_rejects_write_and_creat_on_missing (bk : String → PathRes)
    (t : List FileHandle) (fn : String) (mode fd : Nat)
    (hfree : t.findIdx? (fun s => s.inode_num == 0) = some fd)
    (hfd : fd < t.length)
    (hnf : bk fn = .err (-((enoent : Nat) : Int))) :
    (∀ m2, m2 &&& (O_WRONLY ||| O_TRUNC) ≠ 0 →
      fs_ext2_open bk t fn m2 = (t, OpenRes.err erofs)) ∧
    (mode &&& (O_WRONLY ||| O_TRUNC) = 0 → mode &&& O_CREAT ≠ 0 →
      (fs_ext2_open bk t fn mode).2 = OpenRes.err erofs ∧
      (fhGet (fs_ext2_open bk t fn mode).1 fd).inode_num = 0) ∧
    (mode &&& (O_WRONLY ||| O_TRUNC) = 0 → mode &&& O_CREAT = 0 →
      (fs_ext2_open bk t fn mode).2 = OpenRes.err enoent ∧
      (fhGet (fs_ext2_open bk t fn mode).1 fd).inode_num = 0) := by
  have hfd1 : fd < (t.set fd { fhGet t fd with inode_num := SENTINEL }).length := by
    simpa using hfd
  refine ⟨?_, ?_, ?_⟩
  · intro m2 hw
    simp [fs_ext2_open, hw]
  · intro hw hc
    have h1 : ¬(mode &&& (O_WRONLY ||| O_TRUNC) ≠ 0) := by simp [hw]
    constructor
    · simp [fs_ext2_open, if_neg h1, hfree, hnf, hc]
    · simp only [fs_ext2_open, if_neg h1, hfree, hnf]
      rw [fhGet_set_self _ fd _ hfd1]
  · intro hw hc
    have h1 : ¬(mode &&& (O_WRONLY ||| O_TRUNC) ≠ 0) := by simp [hw]
    constructor
    · simp [fs_ext2_open, if_neg h1, hfree, hnf, hc]
    · simp only [fs_ext2_open, if_neg h1, hfree, hnf]
      rw [fhGet_set_self _ fd _ hfd1]

/-- C9: on a read-write mount with a resolvable parent directory, an
existing non-directory target entry `d`, and backend entry removal and
dereference succeeding: while some open handle's slot holds the
target's inode number, `fs_ext2_unlink` fails with -1/EBUSY and its
trace contains no completed backend mutation (the parent's entry set
and timestamps and the target inode are untouched); and after
`fs_ext2_close` of that handle (assuming no other handle references the
target and the target's inode number is the only match), the very same
unlink returns 0 and its completed mutations are exactly: remove the
parent's directory entry, update the parent's times, then dereference
the leaf inode — the entry removal strictly before the dereference. -/
theorem C9_unlink_busy_until_close (env : DirOpEnv) (t : List FileHandle)
    (f parent ent : String) (pinode : Ext2Inode) (pnum : Nat)
    (d : Ext2Dirent) (ino : Ext2Inode) (in_num : Nat) (hnd : Nat)
    (hrw : env.rw = true) (hsd : env.strdupOk = true)
    (hf : f ≠ "") (hsplit : splitPath f = some (parent, ent))
    (hbp : env.byPath = .ok pinode pnum)
    (hpdir : pinode.i_mode &&& 0xF000 = EXT2_S_IFDIR)
    (hde : env.dirEnt = some d)
    (hig : env.igetRes = some ino)
    (hnodir : ino.i_mode &&& 0xF000 ≠ EXT2_S_IFDIR)
    (hrm : env.rmEntRes = .ok in_num) (hderef : env.derefRes = 0)
    (hfd : hnd - 1 < MAX_EXT2_FILES) (hlen : t.length = 16)
    (hholds : (fhGet t (hnd - 1)).inode_num = d.inode)
    (hmode : (fhGet t (hnd - 1)).mode ≠ 0)
    (hothers : ((fs_ext2_close t hnd).any fun s => s.inode_num == d.inode) =
      false) :
    ((fs_ext2_unlink env t (some f)).1 = -1 ∧
     (fs_ext2_unlink env t (some f)).2.1 = ebusy ∧
     muts (fs_ext2_unlink env t (some f)).2.2 = []) ∧
    ((fs_ext2_unlink env (fs_ext2_close t hnd) (some f)).1 = 0 ∧
     muts (fs_ext2_unlink env (fs_ext2_close t hnd) (some f)).2.2 =
       [Ev.rmEnt pnum ent, Ev.touch pnum, Ev.derefI in_num false]) := by
  have h16 : MAX_EXT2_FILES = 16 := rfl
  have hl : hnd - 1 < t.length := by omega
  have hbusy : (t.any fun s => s.inode_num == d.inode) = true := by
    refine List.any_eq_true.mpr ⟨fhGet t (hnd - 1), fhGet_mem t (hnd - 1) hl, ?_⟩
    simp [hholds]
  constructor
  · simp only [fs_ext2_unlink, hsplit, hbp, hde, hig, hrm, if_neg hf, hrw, hsd]
    simp [hpdir, hnodir, hbusy, muts, isMut]
  · simp only [fs_ext2_unlink, hsplit, hbp, hde, hig, hrm, if_neg hf, hrw, hsd]
    simp [hpdir, hnodir, hothers, hderef, muts, isMut]

/-- C10: on a read-write mount, with a resolvable parent directory, an
existing target entry whose inode is a directory, no open handle
referencing it, and backend entry removal and dereference succeeding,
`fs_ext2_rmdir` returns 0 even though the backend would report the
target directory NON-empty (hypothesis `env.isEmptyRes = 0` — the
definition, like the source, never consults it): it never fails with
ENOTEMPTY, and its completed mutations are exactly: remove the parent's
entry, dereference the target as a directory, update the parent's
times and decrement the parent's link count. -/
theorem C10_rmdir_succeeds_on_nonempty_directory (env : DirOpEnv)
    (t : List FileHandle) (f parent ent : String) (pinode : Ext2Inode)
    (pnum : Nat) (d : Ext2Dirent) (ino : Ext2Inode) (in_num : Nat)
    (hrw : env.rw = true) (hsd : env.strdupOk = true)
    (hf : ¬(f = "" ∨ f = "/")) (hsplit : splitPath f = some (parent, ent))
    (hbp : env.byPath = .ok pinode pnum)
    (hpdir : pinode.i_mode &&& 0xF000 = EXT2_S_IFDIR)
    (hde : env.dirEnt = some d)
    (hig : env.igetRes = some ino)
    (hisdir : ino.i_mode &&& 0xF000 = EXT2_S_IFDIR)
    (hnobusy : (t.any fun s => s.inode_num == d.inode) = false)
    (hrm : env.rmEntRes = .ok in_num) (hderef : env.derefRes = 0)
    (hnonempty : env.isEmptyRes = 0) :
    (fs_ext2_rmdir env t (some f)).1 = 0 ∧
    (fs_ext2_rmdir env t (some f)).2.1 ≠ enotempty ∧
    muts (fs_ext2_rmdir env t (some f)).2.2 =
      [Ev.rmEnt pnum ent, Ev.derefI in_num true, Ev.touch pnum,
       Ev.linkDec pnum] := by
  simp only [fs_ext2_rmdir, hsplit, hbp, hde, hig, hrm, if_neg hf, hrw, hsd]
  simp [hpdir, hisdir, hnobusy, hderef, muts, isMut, enotempty]

/-- Witness for C4: the amended seek theorem applied at the concrete
table `T4` (10-byte file, cursor 5), handle 1, offset -1, SEEK_SET. -/
theorem C4_seek_wraps64_and_clamps_to_size_witness :
    ((1 : Nat) - 1 < MAX_EXT2_FILES ∧ (fhGet T4 (1 - 1)).inode_num ≠ 0 ∧
     (fhGet T4 (1 - 1)).mode &&& O_DIR = 0) ∧
    fs_ext2_seek T4 1 (-1) SEEK_SET =
      (T4.set (1 - 1) { fhGet T4 (1 - 1) with
         ptr := min (u64 (-1)) (fhGet T4 (1 - 1)).inode.i_size },
       SeekRes.ok (min (u64 (-1)) (fhGet T4 (1 - 1)).inode.i_size)) :=
  ⟨⟨by decide, by decide, by decide⟩,
   (C4_seek_wraps64_and_clamps_to_size T4 1 (-1) SEEK_SET (by decide)
     (by decide) (by decide)).1 rfl⟩

/-- Witness for C5: the amended open theorem applied at the all-free
table, the backend where no path exists, mode `O_CREAT` and slot 0:
the create-intent open of a missing path reports EROFS and leaves the
slot free. -/
theorem C5_open_rejects_write_and_creat_on_missing_witness :
    (freeT.findIdx? (fun s => s.inode_num == 0) = some 0 ∧
     (0 : Nat) < freeT.length ∧
     bk5m "/a/f" = PathRes.err (-((enoent : Nat) : Int)) ∧
     O_CREAT &&& (O_WRONLY ||| O_TRUNC) = 0 ∧ O_CREAT &&& O_CREAT ≠ 0) ∧
    ((fs_ext2_open bk5m freeT "/a/f" O_CREAT).2 = OpenRes.err erofs ∧
     (fhGet (fs_ext2_open bk5m freeT "/a/f" O_CREAT).1 0).inode_num = 0) :=
  ⟨⟨by decide, by decide, by decide, by decide, by decide⟩,
   (C5_open_rejects_write_and_creat_on_missing bk5m freeT "/a/f" O_CREAT 0
     (by decide) (by decide) (by decide)).2.1 (by decide) (by decide)⟩

/-- Witness for C6: the close theorem applied at the concrete table `T6`
and handle 1, with each universally quantified operation instantiated
(read with an always-succeeding backend, seek at offset 0/SEEK_SET,
readdir with the backend `B8`, and invalid-handle close at the
out-of-range handle 17). -/
theorem C6_close_invalidates_and_is_idempotent_witness :
    ((fhGet T6 (1 - 1)).inode_num ≠ 0 ∧ (fhGet T6 (1 - 1)).mode ≠ 0) ∧
    (fhGet (fs_ext2_close T6 1) (1 - 1)).inode_num = 0 ∧
    fs_ext2_read (fun _ => true) 0 (fs_ext2_close T6 1) 1 1 =
      (fs_ext2_close T6 1, ReadRes.err einval) ∧
    fs_ext2_seek (fs_ext2_close T6 1) 1 0 SEEK_SET =
      (fs_ext2_close T6 1, SeekRes.err (some einval)) ∧
    fs_ext2_tell (fs_ext2_close T6 1) 1 = TellRes.err einval ∧
    fs_ext2_total (fs_ext2_close T6 1) 1 = TellRes.err einval ∧
    fs_ext2_readdir B8 (fs_ext2_close T6 1) 1 =
      (fs_ext2_close T6 1, RdRes.err einval) ∧
    fs_ext2_close (fs_ext2_close T6 1) 1 = fs_ext2_close T6 1 ∧
    fs_ext2_close T6 17 = T6 := by
  have H := C6_close_invalidates_and_is_idempotent T6 1 (by decide) (by decide)
    (by decide) (by decide)
  exact ⟨⟨by decide, by decide⟩, H.1.1, H.2.1 (fun _ => true) 0 1,
    H.2.2.1 0 SEEK_SET, H.2.2.2.1, H.2.2.2.2.1, H.2.2.2.2.2.1 B8,
    H.2.2.2.2.2.2.1, H.2.2.2.2.2.2.2 17 (Or.inr (by decide))⟩

/-- Witness for C7: the read theorem applied at the concrete table `T7`
(10-byte file, cursor 0), an always-succeeding block backend with block
size 4, handle 1 and count 3: the call returns 3 = min(3, 10 - 0) bytes
and leaves the cursor at 3. -/
theorem C7_read_returns_min_and_advances_cursor_witness :
    ((1 : Nat) - 1 < MAX_EXT2_FILES ∧ T7.length = 16 ∧
     (fhGet T7 (1 - 1)).inode_num ≠ 0 ∧
     (fhGet T7 (1 - 1)).mode &&& O_DIR = 0 ∧
     (fhGet T7 (1 - 1)).ptr ≤ (fhGet T7 (1 - 1)).inode.i_size ∧
     (fhGet T7 (1 - 1)).inode.i_size < U64) ∧
    ((3 : Nat) = min 3 ((fhGet T7 (1 - 1)).inode.i_size -
        (fhGet T7 (1 - 1)).ptr) ∧
     (fhGet (freeT.set 0 ⟨12, O_RDONLY, 3, fileIno⟩) (1 - 1)).ptr =
       (fhGet T7 (1 - 1)).ptr + 3) := by
  have hloop : readLoop (fun _ => true) 2 0 3 = (3, true) := by
    rw [readLoop]
    simp
  have h0 : fhGet T7 (1 - 1) = ⟨12, O_RDONLY, 0, fileIno⟩ := by decide
  have hres : fs_ext2_read (fun _ => true) 2 T7 1 3 =
      (freeT.set 0 ⟨12, O_RDONLY, 3, fileIno⟩, ReadRes.ok 3) := by
    simp only [fs_ext2_read, h0]
    simp [fileIno, O_RDONLY, O_DIR, MAX_EXT2_FILES, hloop, T7, List.set_set]
  exact ⟨⟨by decide, by decide, by decide, by decide, by decide, by decide⟩,
    C7_read_returns_min_and_advances_cursor (fun _ => true) 2 T7
      (freeT.set 0 ⟨12, O_RDONLY, 3, fileIno⟩) 1 3 3 (by decide) (by decide)
      (by decide) (by decide) (by decide) (by decide) hres⟩

/-- Witness for C8: the readdir theorem's tombstone-skip part applied at
the concrete directory handle `T8` and backend `B8`, whose entry at the
cursor is a tombstone (inode 0, record length 12). -/
theorem C8_readdir_skips_tombstones_and_bounds_witness :
    ((1 : Nat) - 1 < MAX_EXT2_FILES ∧ T8.length = 16 ∧
     (fhGet T8 (1 - 1)).inode_num ≠ 0 ∧
     (fhGet T8 (1 - 1)).mode &&& O_DIR ≠ 0 ∧
     (fhGet T8 (1 - 1)).ptr < (fhGet T8 (1 - 1)).inode.i_size ∧
     B8.blockOk ((fhGet T8 (1 - 1)).ptr / 2 ^ B8.lbs) = true ∧
     (B8.dentAt (fhGet T8 (1 - 1)).ptr).rec_len ≠ 0 ∧
     (B8.dentAt (fhGet T8 (1 - 1)).ptr).inode = 0) ∧
    fs_ext2_readdir B8 T8 1 =
      fs_ext2_readdir B8
        (T8.set (1 - 1) { fhGet T8 (1 - 1) with
           ptr := (fhGet T8 (1 - 1)).ptr +
                  (B8.dentAt (fhGet T8 (1 - 1)).ptr).rec_len }) 1 :=
  ⟨⟨by decide, by decide, by decide, by decide, by decide, by decide,
    by decide, by decide⟩,
   (C8_readdir_skips_tombstones_and_bounds B8 T8 1 (by decide) (by decide)
     (by decide) (by decide)).2.2 (by decide) (by decide) (by decide)
     (by decide)⟩

/-- Witness for C9: the unlink busy theorem applied at the concrete
environment `U9` and table `T9`, whose slot 0 holds an open handle on
the unlink target (inode 12). -/
theorem C9_unlink_busy_until_close_witness :
    (U9.rw = true ∧ splitPath "/a/x" = some ("/a", "x") ∧
     U9.byPath = PathRes.ok dirIno 2 ∧
     dirIno.i_mode &&& 0xF000 = EXT2_S_IFDIR ∧
     (fhGet T9 (1 - 1)).inode_num = 12 ∧
     ((fs_ext2_close T9 1).any fun s => s.inode_num == (12 : Nat)) = false) ∧
    ((fs_ext2_unlink U9 T9 (some "/a/x")).1 = -1 ∧
     (fs_ext2_unlink U9 T9 (some "/a/x")).2.1 = ebusy ∧
     muts (fs_ext2_unlink U9 T9 (some "/a/x")).2.2 = []) ∧
    ((fs_ext2_unlink U9 (fs_ext2_close T9 1) (some "/a/x")).1 = 0 ∧
     muts (fs_ext2_unlink U9 (fs_ext2_close T9 1) (some "/a/x")).2.2 =
       [Ev.rmEnt 2 "x", Ev.touch 2, Ev.derefI 12 false]) :=
  ⟨⟨by decide, by decide, by decide, by decide, by decide, by decide⟩,
   C9_unlink_busy_until_close U9 T9 "/a/x" "/a" "x" dirIno 2 ⟨12, 16, 1, "x"⟩
     fileIno 12 1 (by decide) (by decide) (by decide) (by decide) (by decide)
     (by decide) (by decide) (by decide) (by decide) (by decide) (by decide)
     (by decide) (by decide) (by decide) (by decide) (by decide)⟩

/-- Witness for C10: the rmdir theorem applied at the concrete
environment `U10` — whose `isEmptyRes = 0` says the backend would
report the target directory non-empty — and the all-free table. -/
theorem C10_rmdir_succeeds_on_nonempty_directory_witness :
    (U10.isEmptyRes = 0 ∧ splitPath "/a/d" = some ("/a", "d") ∧
     (freeT.any fun s => s.inode_num == (9 : Nat)) = false) ∧
    ((fs_ext2_rmdir U10 freeT (some "/a/d")).1 = 0 ∧
     (fs_ext2_rmdir U10 freeT (some "/a/d")).2.1 ≠ enotempty ∧
     muts (fs_ext2_rmdir U10 freeT (some "/a/d")).2.2 =
       [Ev.rmEnt 2 "d", Ev.derefI 9 true, Ev.touch 2, Ev.linkDec 2]) :=
  ⟨⟨by decide, by decide, by decide⟩,
   C10_rmdir_succeeds_on_nonempty_directory U10 freeT "/a/d" "/a" "d" dirIno 2
     ⟨9, 16, 1, "d"⟩ dirIno 9 (by decide) (by decide) (by decide) (by decide)
     (by decide) (by decide) (by decide) (by decide) (by decide) (by decide)
     (by decide) (by decide) (by decide)⟩
